import Mathlib

/-!
Shallow embedding of the satellite operation simulator (`app.py`):
the orbit/attitude model (`SatSim.get_state`), next-downlink prediction
(`SatSim.predict_next_downlink`), pass visibility
(`build_operation_animation`), and the bus-telemetry generator
(`BusSimulator.generate_data`).

Caller-supplied floats are modelled as rationals (every Python float is a
rational); values produced through transcendental functions (sin, arcsin,
arctan) are modelled as reals.  Python's `%` on floats with a positive
divisor is `x - d * ⌊x / d⌋`.
-/

/-- A ground target, `SatSim.__init__`: `self.t_lat`, `self.t_lon`. -/
structure Target where
  lat : ℚ
  lon : ℚ

/-- `np.clip(x, lo, hi)` = `min (max x lo) hi`. -/
def clip {α : Type} [LinearOrder α] (x lo hi : α) : α :=
  min (max x lo) hi

/-- `(x + 180) % 360 - 180` with Python float modulo semantics:
`y % 360 = y - 360 * ⌊y / 360⌋`. -/
def normalize_deg (x : ℚ) : ℚ :=
  (x + 180) - 360 * ⌊(x + 180) / 360⌋ - 180

/-- Orbital angular rate: `omega = 2 * np.pi / period`, `period = 5760`. -/
noncomputable def omega : ℝ := 2 * Real.pi / 5760

/-- Satellite sub-point latitude, from `SatSim.get_state`:
`phase_offset = arcsin(clip(t_lat / 90, -1, 1))`,
`sat_lat = 90 * sin(phase_offset - omega * t)`. -/
noncomputable def sat_lat (tg : Target) (t : ℚ) : ℝ :=
  90 * Real.sin (Real.arcsin (clip ((tg.lat : ℝ) / 90) (-1) 1) - omega * (t : ℚ))

/-- Satellite sub-point longitude, from `SatSim.get_state`:
`sat_lon = (t_lon - 2.0) + (-0.06) * t`, then wrapped by
`(sat_lon + 180) % 360 - 180`. -/
def sat_lon (tg : Target) (t : ℚ) : ℚ :=
  normalize_deg ((tg.lon - 2) + (-0.06) * t)

/-- Status classification of `SatSim.get_state`. -/
def status (t : ℚ) : String :=
  if |t| ≤ 2 then "CAPTURING!"
  else if t < -20 then "PREV TASK"
  else if t > 20 then "NEXT TASK"
  else "TARGET ACQ"

/-- `np.degrees`. -/
noncomputable def degrees (x : ℝ) : ℝ := x * 180 / Real.pi

/-- `np.arctan2 y x` (full quadrant-aware two-argument arctangent). -/
noncomputable def arctan2 (y x : ℝ) : ℝ :=
  if 0 < x then Real.arctan (y / x)
  else if x < 0 ∧ 0 ≤ y then Real.arctan (y / x) + Real.pi
  else if x < 0 ∧ y < 0 then Real.arctan (y / x) - Real.pi
  else if x = 0 ∧ 0 < y then Real.pi / 2
  else if x = 0 ∧ y < 0 then -(Real.pi / 2)
  else 0

/-- The record returned by `SatSim.get_state`. -/
structure SatState where
  time : ℚ
  lat : ℝ
  lon : ℚ
  pitch : ℝ
  roll : ℝ
  status : String

/-- `SatSim.get_state(t_sec)`. -/
noncomputable def get_state (tg : Target) (t : ℚ) : SatState :=
  let slat : ℝ := sat_lat tg t
  let slon : ℚ := sat_lon tg t
  let d_lat : ℝ := (tg.lat : ℝ) - slat
  let d_lon : ℚ := normalize_deg (tg.lon - slon)
  let pitch : ℝ := if -40 ≤ t ∧ t ≤ 40 then degrees (arctan2 d_lat 10) * 2 else 0
  let roll : ℝ := if -40 ≤ t ∧ t ≤ 40 then degrees (arctan2 (d_lon : ℝ) 10) * 2 else 0
  { time := t
    lat := slat
    lon := slon
    pitch := clip pitch (-45) 45
    roll := clip roll (-45) 45
    status := status t }

/-- One entry of `GROUND_STATIONS`. -/
structure Station where
  name : String
  lat : ℚ
  lon : ℚ
  color : String

/-- The fixed `GROUND_STATIONS` table. -/
def GROUND_STATIONS : List Station :=
  [⟨"Tsukuba", 36.06, 140.12, "tab:red"⟩,
   ⟨"Katsuura", 35.15, 140.30, "tab:red"⟩,
   ⟨"Okinawa", 26.50, 127.85, "tab:red"⟩,
   ⟨"Svalbard", 78.22, 15.40, "tab:blue"⟩,
   ⟨"Santiago", -33.15, -70.66, "tab:green"⟩,
   ⟨"Maspalomas", 27.76, -15.63, "tab:green"⟩]

/-- Planar distance used by `predict_next_downlink`:
`sqrt((state.lat - gs.lat)^2 + (state.lon - gs.lon)^2)`. -/
noncomputable def stationDist (s : SatState) (g : Station) : ℝ :=
  Real.sqrt ((s.lat - (g.lat : ℝ)) ^ 2 + ((s.lon : ℝ) - (g.lon : ℝ)) ^ 2)

/-- The inner loop of `predict_next_downlink`: the first station of the list
whose distance to the state is below 20. -/
noncomputable def findStation (s : SatState) : List Station → Option String
  | [] => none
  | g :: gs => if stationDist s g < 20 then some g.name else findStation s gs

/-- The station test of one probe iteration of `predict_next_downlink`:
recompute the state at `t_check = current_time + 60 * k` and scan the
stations. -/
noncomputable def hitAt (tg : Target) (c : ℚ) (k : ℕ) : Option String :=
  findStation (get_state tg (c + 60 * (k : ℚ))) GROUND_STATIONS

/-- The outer loop of `predict_next_downlink` over the probe offsets
`dt_sec = 60 * k`. -/
noncomputable def predictAux (tg : Target) (c : ℚ) : List ℕ → Option (ℚ × String)
  | [] => none
  | k :: ks =>
    match hitAt tg c k with
    | some name => some (c + 60 * (k : ℚ), name)
    | none => predictAux tg c ks

/-- `SatSim.predict_next_downlink(current_time)`: probes
`t = current_time + dt` for `dt in range(0, 6000, 60)`, i.e. `dt = 60 * k`
for `k < 100`. -/
noncomputable def predict_next_downlink (tg : Target) (c : ℚ) : Option (ℚ × String) :=
  predictAux tg c (List.range 100)

/-- `np.min` over a list (none for the empty array, where `np.min` raises). -/
noncomputable def npMin : List ℝ → Option ℝ
  | [] => none
  | x :: xs =>
    match npMin xs with
    | none => some x
    | some m => some (min x m)

/-- The per-sample distances of `build_operation_animation`:
`np.sqrt((lats - gs.lat)^2 + (lons - gs.lon)^2)` over the state track. -/
noncomputable def passDists (states : List SatState) (g : Station) : List ℝ :=
  states.map (fun s => stationDist s g)

/-- `is_visible_pass` of `build_operation_animation`:
`d_min = np.min(dists)` and visibility is `d_min < 20`. -/
def is_visible_pass (states : List SatState) (g : Station) : Prop :=
  ∃ m, npMin (passDists states g) = some m ∧ m < 20

/-- One row of the telemetry table built by `BusSimulator.generate_data`. -/
structure Sample where
  time : ℝ
  lat : ℝ
  lon : ℝ
  yaw : ℝ
  gen_power : ℝ
  cons_power : ℝ
  battery : ℝ
  roll : ℝ
  pitch : ℝ
  temp_in : ℝ
  temp_ex : ℝ
  rw_speed : ℝ
  mem_usage : ℝ

/-- The mutable carry-state of `generate_data` (`batt_level`, `temp_in`,
`temp_ex`, `mem_usage`), plus the position in the pseudo-random stream. -/
structure Carry where
  batt : ℝ
  temp_in : ℝ
  temp_ex : ℝ
  mem : ℝ
  pos : ℕ

/-- The state of numpy's global random generator: the seed last installed by
`np.random.seed` and the number of draws made since.  A draw of
`np.random.normal(0, sigma)` at stream position `p` under seed `s` yields
`sigma * gauss s p`, where `gauss` is the (arbitrary, fixed) standard-normal
stream of the generator. -/
def RNG : Type := ℕ × ℕ

/-- One iteration of the `for t in self.times` loop of
`BusSimulator.generate_data`: consumes the carry-state and the time `t`
(a numpy integer), returns the new carry-state and the emitted row. -/
noncomputable def stepSample (gauss : ℕ → ℕ → ℝ) (seed : ℕ) (mode : String)
    (c : Carry) (t : ℤ) : Carry × Sample :=
  let is_eclipse : Bool :=
    if mode ≠ "Event (80s)" then decide (3600 < t % 5400)
    else decide (t < -10) || decide (10 < t)
  -- 1) Power
  let gen : ℝ :=
    if is_eclipse then 50 + 3 * gauss seed c.pos else 180 + 8 * gauss seed c.pos
  let pos1 : ℕ := c.pos + 1
  let cons_base : ℝ := if mode ≠ "Event (80s)" then 120 else 140
  let cons : ℝ := cons_base + 5 * gauss seed pos1
  let pos2 : ℕ := pos1 + 1
  -- 2) Battery
  let batt : ℝ :=
    clip (c.batt + (gen - cons) * (if mode = "Event (80s)" then 0.002 else 0.0002)) 0 100
  -- 3) Attitude / RW
  let roll : ℝ :=
    if mode = "Event (80s)" then
      (if -40 ≤ t ∧ t ≤ 40 then Real.sin ((t : ℝ) / 10) * 20 else 0)
    else 0
  let pitch : ℝ :=
    if mode = "Event (80s)" then
      (if -40 ≤ t ∧ t ≤ 40 then Real.cos ((t : ℝ) / 10) * 10 else 0)
    else 0
  let rw_rpm : ℝ :=
    if mode = "Event (80s)" then
      (if -40 ≤ t ∧ t ≤ 40 then 1000 + |roll| * 100 else 1000 + 10 * gauss seed pos2)
    else 1000 + 50 * gauss seed pos2
  let pos3 : ℕ :=
    if mode = "Event (80s)" ∧ (-40 ≤ t ∧ t ≤ 40) then pos2 else pos2 + 1
  -- 4) Thermal
  let target_temp_ex : ℝ := if is_eclipse then -20 else 80
  let dt_factor : ℝ := if mode = "Event (80s)" then 0.1 else 0.5
  let temp_ex : ℝ := c.temp_ex + (target_temp_ex - c.temp_ex) * dt_factor * 0.1
  let temp_in : ℝ := c.temp_in + (temp_ex - c.temp_in) * dt_factor * 0.05
  -- 5) Memory usage
  let mem0 : ℝ :=
    if mode = "Event (80s)" then
      (if -5 ≤ t ∧ t ≤ 5 then c.mem + 2.0
       else if 10 ≤ t ∧ t ≤ 20 then c.mem - 10.0
       else c.mem)
    else
      let m1 : ℝ := if t % 5400 < 1800 then c.mem + 0.8 else c.mem
      if 3600 ≤ t % 5400 ∧ t % 5400 ≤ 4200 then m1 - 3.0 else m1
  let mem : ℝ := clip mem0 0 100
  (⟨batt, temp_in, temp_ex, mem, pos3⟩,
   ⟨(t : ℝ), 0, 0, 0, gen, cons, batt, roll, pitch, temp_in, temp_ex, rw_rpm, mem⟩)

/-- The full `for t in self.times` loop of `generate_data`, threading the
carry-state. -/
noncomputable def genAux (gauss : ℕ → ℕ → ℝ) (seed : ℕ) (mode : String) :
    Carry → List ℤ → List Sample
  | _, [] => []
  | c, t :: ts =>
    let p := stepSample gauss seed mode c t
    p.2 :: genAux gauss seed mode p.1 ts

/-- `self.times = np.arange(t_start, t_end + 1, step)` from
`BusSimulator.__init__`: `-40..40` step 1 for `"Event (80s)"`,
`0..86400` step 600 otherwise. -/
def busTimes (mode : String) : List ℤ :=
  if mode = "Event (80s)" then (List.range 81).map (fun i => (i : ℤ) - 40)
  else (List.range 145).map (fun i => (i : ℤ) * 600)

/-- `BusSimulator(mode).generate_data()` run with incoming global RNG state
`rng`: the first statement `np.random.seed(42)` replaces `rng` by the fresh
state `(42, 0)`, and the loop starts from `batt_level = 80.0`,
`temp_in = 25.0`, `temp_ex = 30.0`, `mem_usage = 10.0`. -/
noncomputable def generate_data (gauss : ℕ → ℕ → ℝ) (mode : String)
    (rng : RNG) : List Sample :=
  let seeded : RNG := (42, 0)
  genAux gauss seeded.1 mode ⟨80, 25, 30, 10, seeded.2⟩ (busTimes mode)

/-! ## Helper lemmas -/

lemma normalize_deg_bounds (x : ℚ) :
    -180 ≤ normalize_deg x ∧ normalize_deg x < 180 := by
  have h1 : (0 : ℚ) ≤ Int.fract ((x + 180) / 360) := Int.fract_nonneg _
  have h2 : Int.fract ((x + 180) / 360) < 1 := Int.fract_lt_one _
  have key : normalize_deg x = 360 * Int.fract ((x + 180) / 360) - 180 := by
    unfold normalize_deg Int.fract
    ring
  constructor <;> rw [key] <;> nlinarith

lemma clip_bounds {α : Type} [LinearOrder α] (x lo hi : α) (h : lo ≤ hi) :
    lo ≤ clip x lo hi ∧ clip x lo hi ≤ hi :=
  ⟨le_min (le_max_right x lo) h, min_le_right _ _⟩

/-! ## C1: longitude range of the orbit state -/

/-- C1 (counterexample): the claim puts `get_state`'s longitude in the
half-open interval `(-180, 180]`, but at target `(0, -178)` and `t = 0` the
computed longitude is exactly `-180`, which the claimed interval excludes. -/
theorem get_state_lon_not_gt_neg180 :
    ¬ (-180 < (get_state ⟨0, -178⟩ 0).lon) := by
  have h : (get_state (Target.mk 0 (-178)) 0).lon = -180 := by
    show sat_lon ⟨0, -178⟩ 0 = -180
    norm_num [sat_lon, normalize_deg]
  rw [h]
  norm_num

/-- C1 (amended): for every target and time offset, the longitude returned by
`get_state` — the value `normalize_deg(target.lon - 2.0 - 0.06 * t)` — lies in
the half-open interval `[-180, 180)`: at least `-180` and strictly below
`180`. -/
theorem get_state_lon_mem_Ico (tg : Target) (t : ℚ) :
    -180 ≤ (get_state tg t).lon ∧ (get_state tg t).lon < 180 := by
  have h : (get_state tg t).lon = normalize_deg ((tg.lon - 2) + (-0.06) * t) := rfl
  rw [h]
  exact normalize_deg_bounds _

/-! ## C5: phase alignment at t = 0 -/

/-- C5: for every target with latitude in `[-90, 90]`, the latitude returned
by `get_state` at `t = 0` equals the target's latitude exactly:
`90 * sin(arcsin(clip(lat / 90, -1, 1)))` recovers `lat`. -/
theorem get_state_lat_at_zero (tg : Target) (h1 : -90 ≤ tg.lat) (h2 : tg.lat ≤ 90) :
    (get_state tg 0).lat = (tg.lat : ℝ) := by
  have hlo : (-1 : ℝ) ≤ (tg.lat : ℝ) / 90 := by
    rw [le_div_iff₀ (by norm_num : (0 : ℝ) < 90)]
    have : (-90 : ℝ) ≤ (tg.lat : ℝ) := by exact_mod_cast h1
    linarith
  have hhi : (tg.lat : ℝ) / 90 ≤ 1 := by
    rw [div_le_iff₀ (by norm_num : (0 : ℝ) < 90)]
    have : (tg.lat : ℝ) ≤ 90 := by exact_mod_cast h2
    linarith
  have hc : clip ((tg.lat : ℝ) / 90) (-1) 1 = (tg.lat : ℝ) / 90 := by
    unfold clip
    rw [max_eq_left hlo, min_eq_left hhi]
  have h : (get_state tg 0).lat = sat_lat tg 0 := rfl
  rw [h]
  unfold sat_lat
  rw [hc]
  have hz : omega * (((0 : ℚ) : ℚ) : ℝ) = 0 := by norm_num
  rw [hz, sub_zero, Real.sin_arcsin hlo hhi]
  field_simp

/-- Witness for C5 at the Tsukuba-like target `(36, 140)`. -/
theorem get_state_lat_at_zero_witness :
    (get_state ⟨36, 140⟩ 0).lat = ((36 : ℚ) : ℝ) :=
  get_state_lat_at_zero ⟨36, 140⟩ (by norm_num) (by norm_num)

/-! ## C2: behaviour on out-of-domain input -/

/-- C2 (counterexample): for the out-of-domain latitude `100` (`|lat| > 90`)
`get_state` raises no error and computes a normal result: the latitude ratio
is clipped to `1`, giving orbit latitude `90`, and a status string is
produced. -/
theorem get_state_total_on_invalid_lat :
    (get_state ⟨100, 140⟩ 0).lat = 90 ∧
      (get_state ⟨100, 140⟩ 0).status = "CAPTURING!" := by
  constructor
  · show sat_lat ⟨100, 140⟩ 0 = 90
    unfold sat_lat
    have hc : clip (((100 : ℚ) : ℝ) / 90) (-1) 1 = 1 := by
      unfold clip
      rw [max_eq_left (by norm_num), min_eq_right (by norm_num)]
    rw [hc]
    have hz : omega * (((0 : ℚ) : ℚ) : ℝ) = 0 := by norm_num
    rw [hz, sub_zero, Real.arcsin_one, Real.sin_pi_div_two]
    norm_num
  · show status 0 = "CAPTURING!"
    decide

/-- C2 (amended): the core performs no input validation: a latitude beyond 90
is silently clipped inside `arcsin`, so every target latitude at least 90
yields the same orbit latitude as latitude 90, and the computation returns
normally. -/
theorem get_state_lat_clipped_above_90 (lat lon t : ℚ) (h : 90 ≤ lat) :
    (get_state ⟨lat, lon⟩ t).lat = (get_state ⟨90, lon⟩ t).lat := by
  show sat_lat ⟨lat, lon⟩ t = sat_lat ⟨90, lon⟩ t
  unfold sat_lat
  have h90 : (90 : ℝ) ≤ (lat : ℝ) := by exact_mod_cast h
  have h1 : (1 : ℝ) ≤ (lat : ℝ) / 90 := by
    rw [le_div_iff₀ (by norm_num : (0 : ℝ) < 90)]
    linarith
  have hcl : clip ((lat : ℝ) / 90) (-1) 1 = 1 := by
    unfold clip
    rw [max_eq_left (by linarith), min_eq_right h1]
  have hcr : clip (((90 : ℚ) : ℝ) / 90) (-1) 1 = 1 := by
    unfold clip
    rw [max_eq_left (by norm_num), min_eq_right (by norm_num)]
  rw [hcl, hcr]

/-- Witness for C2's amended theorem at latitude 100. -/
theorem get_state_lat_clipped_above_90_witness :
    (get_state ⟨100, 140⟩ 0).lat = (get_state ⟨90, 140⟩ 0).lat :=
  get_state_lat_clipped_above_90 100 140 0 (by norm_num)

/-! ## C6: status classification is a priority-ordered partition -/

/-- C6: the status classification assigns exactly one of four labels, by
priority: `|t| ≤ 2` gives CAPTURING, else `t < -20` gives PREV TASK, else
`t > 20` gives NEXT TASK, else TARGET ACQ; the four cases are mutually
exclusive and cover every time offset. -/
theorem status_partition (t : ℚ) :
    (status t = "CAPTURING!" ↔ |t| ≤ 2)
    ∧ (status t = "PREV TASK" ↔ ¬ |t| ≤ 2 ∧ t < -20)
    ∧ (status t = "NEXT TASK" ↔ ¬ |t| ≤ 2 ∧ ¬ t < -20 ∧ 20 < t)
    ∧ (status t = "TARGET ACQ" ↔ ¬ |t| ≤ 2 ∧ ¬ t < -20 ∧ ¬ 20 < t) := by
  unfold status
  by_cases h1 : |t| ≤ 2
  · rw [if_pos h1]
    exact ⟨iff_of_true rfl h1,
           iff_of_false (by decide) (fun h => h.1 h1),
           iff_of_false (by decide) (fun h => h.1 h1),
           iff_of_false (by decide) (fun h => h.1 h1)⟩
  · by_cases h2 : t < -20
    · rw [if_neg h1, if_pos h2]
      exact ⟨iff_of_false (by decide) h1,
             iff_of_true rfl ⟨h1, h2⟩,
             iff_of_false (by decide) (fun h => h.2.1 h2),
             iff_of_false (by decide) (fun h => h.2.1 h2)⟩
    · by_cases h3 : t > 20
      · rw [if_neg h1, if_neg h2, if_pos h3]
        exact ⟨iff_of_false (by decide) h1,
               iff_of_false (by decide) (fun h => h2 h.2),
               iff_of_true rfl ⟨h1, h2, h3⟩,
               iff_of_false (by decide) (fun h => h.2.2 h3)⟩
      · rw [if_neg h1, if_neg h2, if_neg h3]
        exact ⟨iff_of_false (by decide) h1,
               iff_of_false (by decide) (fun h => h2 h.2),
               iff_of_false (by decide) (fun h => h3 h.2.2),
               iff_of_true rfl ⟨h1, h2, h3⟩⟩

/-! ## C7: attitude dead band and clamping -/

/-- C7: outside the dead band (`|t| > 40`) the attitude is roll = pitch = 0;
inside it, pitch is `degrees(atan2(target.lat - sat_lat, 10)) * 2` and roll is
`degrees(atan2(normalize_deg(target.lon - sat_lon), 10)) * 2`, each clamped to
`[-45, 45]`. -/
theorem get_state_attitude (tg : Target) (t : ℚ) :
    (get_state tg t).pitch =
      (if |t| ≤ 40 then
        clip (degrees (arctan2 ((tg.lat : ℝ) - sat_lat tg t) 10) * 2) (-45) 45
       else 0)
    ∧ (get_state tg t).roll =
      (if |t| ≤ 40 then
        clip (degrees (arctan2 ((normalize_deg (tg.lon - sat_lon tg t) : ℚ) : ℝ) 10) * 2)
          (-45) 45
       else 0) := by
  have hz : clip (0 : ℝ) (-45) 45 = 0 := by
    unfold clip
    rw [max_eq_left (by norm_num : (-45 : ℝ) ≤ 0), min_eq_left (by norm_num : (0 : ℝ) ≤ 45)]
  constructor
  · show clip (if -40 ≤ t ∧ t ≤ 40 then
        degrees (arctan2 ((tg.lat : ℝ) - sat_lat tg t) 10) * 2 else 0) (-45) 45 = _
    by_cases h : -40 ≤ t ∧ t ≤ 40
    · rw [if_pos h, if_pos (abs_le.mpr h)]
    · rw [if_neg h, if_neg (fun hab => h (abs_le.mp hab)), hz]
  · show clip (if -40 ≤ t ∧ t ≤ 40 then
        degrees (arctan2 ((normalize_deg (tg.lon - sat_lon tg t) : ℚ) : ℝ) 10) * 2
      else 0) (-45) 45 = _
    by_cases h : -40 ≤ t ∧ t ≤ 40
    · rw [if_pos h, if_pos (abs_le.mpr h)]
    · rw [if_neg h, if_neg (fun hab => h (abs_le.mp hab)), hz]

/-! ## C4: pass visibility -/

lemma npMin_mem : ∀ (l : List ℝ) (m : ℝ), npMin l = some m → m ∈ l := by
  intro l
  induction l with
  | nil => intro m h; simp [npMin] at h
  | cons x xs ih =>
    intro m h
    unfold npMin at h
    cases hx : npMin xs with
    | none =>
      rw [hx] at h
      simp at h
      simp [h]
    | some m0 =>
      rw [hx] at h
      simp at h
      rcases le_or_lt x m0 with hle | hlt
      · rw [min_eq_left hle] at h
        simp [h]
      · rw [min_eq_right (le_of_lt hlt)] at h
        exact List.mem_cons_of_mem x (ih m (h ▸ hx))

lemma npMin_le : ∀ (l : List ℝ) (m : ℝ), npMin l = some m → ∀ y ∈ l, m ≤ y := by
  intro l
  induction l with
  | nil => intro m h; simp [npMin] at h
  | cons x xs ih =>
    intro m h y hy
    unfold npMin at h
    cases hx : npMin xs with
    | none =>
      rw [hx] at h
      simp at h
      cases xs with
      | nil =>
        rcases List.mem_cons.mp hy with h1 | h1
        · exact le_of_eq (by rw [h1, ← h])
        · simp at h1
      | cons a l => simp [npMin] at hx; cases hm : npMin l <;> rw [hm] at hx <;> simp at hx
    | some m0 =>
      rw [hx] at h
      simp at h
      rcases List.mem_cons.mp hy with h1 | h1
      · rw [← h, h1]
        exact min_le_left _ _
      · calc m ≤ m0 := by rw [← h]; exact min_le_right _ _
             _ ≤ y := ih m0 hx y h1

lemma npMin_isSome : ∀ (l : List ℝ), l ≠ [] → ∃ m, npMin l = some m := by
  intro l
  induction l with
  | nil => intro h; exact absurd rfl h
  | cons x xs _ =>
    intro _
    unfold npMin
    cases hx : npMin xs with
    | none => exact ⟨x, rfl⟩
    | some m0 => exact ⟨min x m0, rfl⟩

/-- C4: pass visibility of a station is the binary, whole-pass test
`np.min(dists) < 20`, which holds exactly when some sampled state of the
sequence has planar Euclidean distance to the station strictly below 20. -/
theorem is_visible_pass_iff (states : List SatState) (g : Station) :
    is_visible_pass states g ↔ ∃ s ∈ states, stationDist s g < 20 := by
  unfold is_visible_pass
  constructor
  · rintro ⟨m, hm, hlt⟩
    have hmem : m ∈ passDists states g := npMin_mem _ m hm
    rcases List.mem_map.mp hmem with ⟨s, hs, hds⟩
    exact ⟨s, hs, by rw [hds]; exact hlt⟩
  · rintro ⟨s, hs, hlt⟩
    have hne : passDists states g ≠ [] := by
      unfold passDists
      simp only [ne_eq, List.map_eq_nil_iff]
      intro h
      rw [h] at hs
      simp at hs
    rcases npMin_isSome _ hne with ⟨m, hm⟩
    refine ⟨m, hm, lt_of_le_of_lt ?_ hlt⟩
    exact npMin_le _ m hm _ (List.mem_map.mpr ⟨s, hs, rfl⟩)

/-! ## C3: next-downlink prediction -/

lemma findStation_eq_some_iff (s : SatState) :
    ∀ (gs : List Station) (nm : String),
      findStation s gs = some nm ↔
        ∃ i, ∃ h : i < gs.length, nm = gs[i].name ∧
          stationDist s gs[i] < 20 ∧
          ∀ g ∈ gs.take i, ¬ stationDist s g < 20 := by
  intro gs
  induction gs with
  | nil => intro nm; simp [findStation]
  | cons g gs ih =>
    intro nm
    unfold findStation
    by_cases hd : stationDist s g < 20
    · rw [if_pos hd]
      constructor
      · intro h
        refine ⟨0, Nat.succ_pos _, ?_, ?_, ?_⟩
        · simpa using (Option.some.inj h).symm
        · simpa using hd
        · intro g' hg'
          simp at hg'
      · rintro ⟨i, hi, hnm, hdist, hmin⟩
        cases i with
        | zero =>
          simp only [List.getElem_cons_zero] at hnm
          rw [hnm]
        | succ j =>
          exfalso
          apply hmin g _ hd
          rw [List.take_succ_cons]
          exact List.mem_cons_self g _
    · rw [if_neg hd]
      rw [ih nm]
      constructor
      · rintro ⟨i, hi, hnm, hdist, hmin⟩
        refine ⟨i + 1, Nat.succ_lt_succ hi, ?_, ?_, ?_⟩
        · simpa using hnm
        · simpa using hdist
        · intro g' hg'
          rw [List.take_succ_cons] at hg'
          rcases List.mem_cons.mp hg' with h1 | h1
          · rw [h1]; exact hd
          · exact hmin g' h1
      · rintro ⟨i, hi, hnm, hdist, hmin⟩
        cases i with
        | zero =>
          exact absurd (by simpa using hdist) hd
        | succ j =>
          have hj : j < gs.length := Nat.lt_of_succ_lt_succ hi
          refine ⟨j, hj, ?_, ?_, ?_⟩
          · simpa using hnm
          · simpa using hdist
          · intro g' hg'
            apply hmin g'
            rw [List.take_succ_cons]
            exact List.mem_cons_of_mem g hg'

lemma findStation_eq_none_iff (s : SatState) :
    ∀ gs : List Station,
      findStation s gs = none ↔ ∀ g ∈ gs, ¬ stationDist s g < 20 := by
  intro gs
  induction gs with
  | nil => simp [findStation]
  | cons g gs ih =>
    unfold findStation
    by_cases hd : stationDist s g < 20
    · rw [if_pos hd]
      simp only [reduceCtorEq, false_iff]
      intro h
      exact h g (List.mem_cons_self g _) hd
    · rw [if_neg hd, ih]
      constructor
      · intro h g' hg'
        rcases List.mem_cons.mp hg' with h1 | h1
        · rw [h1]; exact hd
        · exact h g' h1
      · intro h g' hg'
        exact h g' (List.mem_cons_of_mem g hg')

lemma predictAux_eq_some_iff (tg : Target) (c : ℚ) :
    ∀ (ks : List ℕ) (t : ℚ) (nm : String),
      predictAux tg c ks = some (t, nm) ↔
        ∃ i, ∃ h : i < ks.length, t = c + 60 * (ks[i] : ℚ) ∧
          hitAt tg c ks[i] = some nm ∧
          ∀ k ∈ ks.take i, hitAt tg c k = none := by
  intro ks
  induction ks with
  | nil => intro t nm; simp [predictAux]
  | cons k ks ih =>
    intro t nm
    cases hk : hitAt tg c k with
    | some name =>
      simp only [predictAux, hk]
      constructor
      · intro h
        obtain ⟨h1, h2⟩ := Prod.mk.injEq .. ▸ Option.some.inj h
        refine ⟨0, Nat.succ_pos _, ?_, ?_, ?_⟩
        · simpa using h1.symm
        · simpa using hk.trans (by rw [h2])
        · intro k' hk'
          simp at hk'
      · rintro ⟨i, hi, ht, hhit, hmin⟩
        cases i with
        | zero =>
          simp only [List.getElem_cons_zero] at ht hhit
          rw [hk] at hhit
          rw [ht, Option.some.inj hhit]
        | succ j =>
          exfalso
          have : hitAt tg c k = none := by
            apply hmin k
            rw [List.take_succ_cons]
            exact List.mem_cons_self k _
          rw [hk] at this
          cases this
    | none =>
      simp only [predictAux, hk]
      rw [ih]
      constructor
      · rintro ⟨i, hi, ht, hhit, hmin⟩
        refine ⟨i + 1, Nat.succ_lt_succ hi, ?_, ?_, ?_⟩
        · simpa using ht
        · simpa using hhit
        · intro k' hk'
          rw [List.take_succ_cons] at hk'
          rcases List.mem_cons.mp hk' with h1 | h1
          · rw [h1]; exact hk
          · exact hmin k' h1
      · rintro ⟨i, hi, ht, hhit, hmin⟩
        cases i with
        | zero =>
          exfalso
          simp only [List.getElem_cons_zero] at hhit
          rw [hk] at hhit
          cases hhit
        | succ j =>
          have hj : j < ks.length := Nat.lt_of_succ_lt_succ hi
          refine ⟨j, hj, ?_, ?_, ?_⟩
          · simpa using ht
          · simpa using hhit
          · intro k' hk'
            apply hmin k'
            rw [List.take_succ_cons]
            exact List.mem_cons_of_mem k hk'

lemma predictAux_eq_none_iff (tg : Target) (c : ℚ) :
    ∀ ks : List ℕ,
      predictAux tg c ks = none ↔ ∀ k ∈ ks, hitAt tg c k = none := by
  intro ks
  induction ks with
  | nil => simp [predictAux]
  | cons k ks ih =>
    cases hk : hitAt tg c k with
    | some name =>
      simp only [predictAux, hk]
      simp only [reduceCtorEq, false_iff]
      intro h
      have := h k (List.mem_cons_self k _)
      rw [hk] at this
      cases this
    | none =>
      simp only [predictAux, hk]
      rw [ih]
      constructor
      · intro h k' hk'
        rcases List.mem_cons.mp hk' with h1 | h1
        · rw [h1]; exact hk
        · exact h k' h1
      · intro h k' hk'
        exact h k' (List.mem_cons_of_mem k hk')

/-- C3: `predict_next_downlink` returns the pair at the smallest probe time
`t = current_time + 60 * k` (`k < 100`) at which some station is within
planar distance 20, ties resolved to the first station in declaration order
(`findStation` scans `GROUND_STATIONS` in order); it returns none when no
probe within the horizon hits a station; the returned time is never earlier
than `current_time`. -/
theorem predict_next_downlink_characterization (tg : Target) (c : ℚ) :
    (∀ t nm, predict_next_downlink tg c = some (t, nm) ↔
        c ≤ t ∧ ∃ k : ℕ, k < 100 ∧ t = c + 60 * (k : ℚ) ∧ hitAt tg c k = some nm ∧
          ∀ j, j < k → hitAt tg c j = none)
    ∧ (predict_next_downlink tg c = none ↔ ∀ k, k < 100 → hitAt tg c k = none)
    ∧ (∀ s nm, findStation s GROUND_STATIONS = some nm ↔
        ∃ i, ∃ h : i < GROUND_STATIONS.length, nm = GROUND_STATIONS[i].name ∧
          stationDist s GROUND_STATIONS[i] < 20 ∧
          ∀ g ∈ GROUND_STATIONS.take i, ¬ stationDist s g < 20)
    ∧ (∀ s, findStation s GROUND_STATIONS = none ↔
        ∀ g ∈ GROUND_STATIONS, ¬ stationDist s g < 20) := by
  refine ⟨?_, ?_, fun s nm => findStation_eq_some_iff s GROUND_STATIONS nm,
          fun s => findStation_eq_none_iff s GROUND_STATIONS⟩
  · intro t nm
    rw [predict_next_downlink, predictAux_eq_some_iff]
    constructor
    · rintro ⟨i, hi, ht, hhit, hmin⟩
      have hlen : i < 100 := by simpa using hi
      have hgi : (List.range 100)[i] = i := by simp
      rw [hgi] at ht hhit
      refine ⟨?_, i, hlen, ht, hhit, ?_⟩
      · rw [ht]
        have h60 : (0 : ℚ) ≤ 60 * (i : ℚ) := by positivity
        linarith
      · intro j hj
        apply hmin j
        have htake : (List.range 100).take i = List.range i := by
          rw [List.take_range, min_eq_left (le_of_lt hlen)]
        rw [htake]
        exact List.mem_range.mpr hj
    · rintro ⟨hct, k, hk, ht, hhit, hmin⟩
      have hk' : k < (List.range 100).length := by simpa using hk
      refine ⟨k, hk', ?_, ?_, ?_⟩
      · have : (List.range 100)[k] = k := by simp
        rw [this]
        exact ht
      · have : (List.range 100)[k] = k := by simp
        rw [this]
        exact hhit
      · intro j hjmem
        apply hmin j
        have htake : (List.range 100).take k = List.range k := by
          rw [List.take_range, min_eq_left (le_of_lt hk)]
        rw [htake] at hjmem
        exact List.mem_range.mp hjmem
  · rw [predict_next_downlink, predictAux_eq_none_iff]
    constructor
    · intro h k hk
      exact h k (List.mem_range.mpr hk)
    · intro h k hk
      exact h k (List.mem_range.mp hk)

/-! ## C8: determinism of telemetry generation -/

/-- C8: telemetry generation is deterministic under the fixed seed:
`generate_data` begins with `np.random.seed(42)`, so its output does not
depend on the incoming state of the global random generator, and two
independent runs in the same mode produce identical sample sequences. -/
theorem generate_data_deterministic (gauss : ℕ → ℕ → ℝ) (mode : String)
    (r1 r2 : RNG) :
    generate_data gauss mode r1 = generate_data gauss mode r2 := rfl

/-! ## C9: battery and memory clamps -/

/-- The bounds claimed for one telemetry row: battery and recorder memory in
`[0, 100]`. -/
def SampleOK (s : Sample) : Prop :=
  0 ≤ s.battery ∧ s.battery ≤ 100 ∧ 0 ≤ s.mem_usage ∧ s.mem_usage ≤ 100

/-- `SampleOK` across a whole sample sequence. -/
def AllOK : List Sample → Prop
  | [] => True
  | s :: l => SampleOK s ∧ AllOK l

lemma stepSample_ok (gauss : ℕ → ℕ → ℝ) (seed : ℕ) (mode : String)
    (c : Carry) (t : ℤ) : SampleOK (stepSample gauss seed mode c t).2 := by
  have h100 : (0 : ℝ) ≤ 100 := by norm_num
  exact ⟨(clip_bounds _ _ _ h100).1, (clip_bounds _ _ _ h100).2,
         (clip_bounds _ _ _ h100).1, (clip_bounds _ _ _ h100).2⟩

lemma genAux_allOK (gauss : ℕ → ℕ → ℝ) (seed : ℕ) (mode : String) :
    ∀ (ts : List ℤ) (c : Carry), AllOK (genAux gauss seed mode c ts) := by
  intro ts
  induction ts with
  | nil => intro c; trivial
  | cons t ts ih =>
    intro c
    exact ⟨stepSample_ok gauss seed mode c t, ih _⟩

/-- C9: in every generated telemetry sequence, in both modes, the Battery and
Mem_Usage values of every sample lie in `[0, 100]`: both carry-states
(battery starting at 80.0, recorder memory starting at 10.0) are clamped by
`np.clip(_, 0, 100)` after each update, and the clamped value is what each
row records. -/
theorem generate_data_battery_mem_bounds (gauss : ℕ → ℕ → ℝ) (mode : String)
    (rng : RNG) : AllOK (generate_data gauss mode rng) :=
  genAux_allOK gauss 42 mode (busTimes mode) ⟨80, 25, 30, 10, 0⟩

/-! ## C10: unrecognized mode strings behave as the long-term mode -/

lemma stepSample_mode_congr (gauss : ℕ → ℕ → ℝ) (seed : ℕ) (mode : String)
    (h : mode ≠ "Event (80s)") (c : Carry) (t : ℤ) :
    stepSample gauss seed mode c t = stepSample gauss seed "Long-term (1day)" c t := by
  have hL : ("Long-term (1day)" : String) ≠ "Event (80s)" := by decide
  simp [stepSample, h, hL]

lemma genAux_mode_congr (gauss : ℕ → ℕ → ℝ) (seed : ℕ) (mode : String)
    (h : mode ≠ "Event (80s)") :
    ∀ (ts : List ℤ) (c : Carry),
      genAux gauss seed mode c ts = genAux gauss seed "Long-term (1day)" c ts := by
  intro ts
  induction ts with
  | nil => intro c; rfl
  | cons t ts ih =>
    intro c
    show (stepSample gauss seed mode c t).2 :: _ = _
    rw [stepSample_mode_congr gauss seed mode h c t]
    show _ = (stepSample gauss seed "Long-term (1day)" c t).2 :: _
    rw [ih]

/-- C10: the telemetry generator dispatches on exact equality with
`"Event (80s)"`: every other mode string raises no error and runs exactly the
long-term configuration — its output is identical to the documented
long-term mode's. -/
theorem generate_data_unknown_mode_eq_longterm (gauss : ℕ → ℕ → ℝ)
    (rng : RNG) (mode : String) (h : mode ≠ "Event (80s)") :
    generate_data gauss mode rng = generate_data gauss "Long-term (1day)" rng := by
  have hL : ("Long-term (1day)" : String) ≠ "Event (80s)" := by decide
  show genAux gauss 42 mode ⟨80, 25, 30, 10, 0⟩ (busTimes mode) = _
  have ht : busTimes mode = busTimes "Long-term (1day)" := by
    simp [busTimes, h, hL]
  rw [ht, genAux_mode_congr gauss 42 mode h]
  rfl

/-- Witness for C10: a misspelled mode string produces the long-term run. -/
theorem generate_data_unknown_mode_eq_longterm_witness :
    generate_data (fun _ _ => 0) "Evnet (80s)" ((0, 0) : RNG) =
      generate_data (fun _ _ => 0) "Long-term (1day)" ((0, 0) : RNG) :=
  generate_data_unknown_mode_eq_longterm (fun _ _ => 0) ((0, 0) : RNG)
    "Evnet (80s)" (by decide)
